import Mathlib

/-!
Verification of `ros_openpose` (file `src/rosOpenpose.cpp`) against its
natural-language specification.

The repository is a thin adapter between a ROS camera pipeline and the
OpenPose worker-thread framework.  Its two workers are embedded here:

* `workProducer` (class `WUserInput`): fetches the latest color frame from
  the camera reader and wraps it in a datum, or skips the frame when empty.
* `workConsumer` (class `WUserOutput`): reads the 2D keypoints of the first
  datum, looks up depth, projects every keypoint to a 3D point and publishes
  one `ros_openpose::Frame` message.

External effects (camera reader calls, `publish`, `ros::Time::now`) are
modelled by explicit inputs; calls that may throw a C++ exception are
modelled as `Except`-valued inputs, and the `try`/`catch` blocks of the
source become total Lean functions returning an outcome record that carries
the published frames, the `stop()` flag and the log messages.

Numeric pixel/score/depth values are modelled as rationals (the claims under
study are about data movement and one exact algebraic formula, not about
floating-point rounding).
-/

namespace RosOpenpose

/-- A log entry as produced by the `ROS_ERROR("Error %s at line number %d on
function %s in file %s", ...)` calls of the source: message plus
file/line/function context. -/
structure LogEntry where
  what : String
  line : Nat
  func : String
  file : String
  deriving Repr, DecidableEq

/-- An exception escaping one of the modelled external calls
(`getColorFrame`, `copyLatestDepthImage`, `publish`): only its `what()`
message is observable. -/
structure Exn where
  what : String
  deriving Repr, DecidableEq

/-- A `cv::Mat` color image: we only need its pixel buffer and the
`empty()` test used by `workProducer`. -/
structure CvMat where
  data : List ℚ
  deriving Repr, DecidableEq

/-- `cv::Mat::empty()`: true iff the image holds no pixels. -/
def CvMat.empty (m : CvMat) : Bool :=
  m.data.isEmpty

/-- `op::Array<float>`: a multidimensional array stored as a flat row-major
buffer together with its dimension sizes (`mSize` in the library). -/
structure OpArray where
  sizes : List Nat
  data : List ℚ
  deriving Repr, DecidableEq

/-- `op::Array::getSize(index)`: the size of the given dimension; for an
out-of-range index the library returns 0 on an empty array and 1 otherwise
(Matlab-style semantics, as documented in the OpenPose sources). -/
def OpArray.getSize (a : OpArray) (index : Nat) : Nat :=
  if index < a.sizes.length then a.sizes.getD index 0
  else if a.sizes.isEmpty then 0 else 1

/-- `op::Array::operator[](int)`: raw access into the flat buffer
(out-of-range reads are modelled as 0). -/
def OpArray.at (a : OpArray) (index : Nat) : ℚ :=
  a.data.getD index 0

/-- `op::Array::getIndex(indexes)`: the row-major flat position of a
multi-index, as computed by the library
(`index = indexes[0]; for i ≥ 1, index = index * mSize[i] + indexes[i]`). -/
def OpArray.getIndex (a : OpArray) (indexes : List Nat) : Nat :=
  match indexes with
  | [] => 0
  | i0 :: rest =>
      (rest.zip (a.sizes.drop 1)).foldl (fun acc p => acc * p.2 + p.1) i0

/-- `op::Array::operator[](const std::vector<int>&)`: multi-index access,
the "easy version" shown in the source comment
(`poseKeypoints[{person, bodyPart, 0}]`). -/
def OpArray.atMulti (a : OpArray) (indexes : List Nat) : ℚ :=
  a.at (a.getIndex indexes)

/-- An `op::Datum` as used by this node: the input color image filled by the
producer and the pose keypoints filled by the OpenPose pipeline. -/
structure Datum where
  cvInputData : CvMat
  poseKeypoints : OpArray
  deriving Repr, DecidableEq

/-- A default-constructed `op::Datum` (what
`std::make_shared<op::Datum>()` yields before the producer fills it): empty
image, empty keypoint array. -/
def Datum.default : Datum :=
  { cvInputData := { data := [] }, poseKeypoints := { sizes := [], data := [] } }

/-- `geometry_msgs`-style 2D pixel, field `pixel` of a body part. -/
structure Pixel where
  x : ℚ
  y : ℚ
  deriving Repr, DecidableEq

/-- 3D point, field `point` of a body part. -/
structure Point3 where
  x : ℚ
  y : ℚ
  z : ℚ
  deriving Repr, DecidableEq

/-- `ros_openpose::BodyPart`: 2D pixel location, confidence score and
computed 3D point. -/
structure BodyPart where
  pixel : Pixel
  score : ℚ
  point : Point3
  deriving Repr, DecidableEq

/-- `ros_openpose::Person`: ordered list of body parts. -/
structure Person where
  bodyParts : List BodyPart
  deriving Repr, DecidableEq

/-- Message header: frame id and timestamp (time modelled as `Nat`). -/
structure Header where
  frame_id : String
  stamp : Nat
  deriving Repr, DecidableEq

/-- `ros_openpose::Frame`: the per-frame message, an ordered list of
detected persons under a header. -/
structure Frame where
  header : Header
  persons : List Person
  deriving Repr, DecidableEq

/-- Camera intrinsic parameters (focal lengths and principal point) of the
calibrated pinhole model. -/
structure Intrinsics where
  fx : ℚ
  fy : ℚ
  cx : ℚ
  cy : ℚ
  deriving Repr, DecidableEq

/-- A depth image, as a total lookup from a pixel location to the depth
value registered at that pixel. -/
def DepthImage : Type :=
  ℚ → ℚ → ℚ

/-- Modelled from the spec: `CameraReader::compute3DPoint` lives in
`cameraReader.hpp`, which is not part of the sources under review; the spec
describes it as "projecting a 2D pixel + depth value into a 3D point via a
calibrated camera intrinsic matrix", "a single well-known formula (inverse
pinhole projection)", the result "expressed in the sensor's optical frame".
The inverse pinhole projection with intrinsics (fx, fy, cx, cy): from pixel
(u, v) and its looked-up depth z, the 3D point is
((u - cx) · z / fx, (v - cy) · z / fy, z). -/
def compute3DPoint (intr : Intrinsics) (depth : DepthImage) (u v : ℚ) : Point3 :=
  let z := depth u v
  { x := (u - intr.cx) * z / intr.fx
    y := (v - intr.cy) * z / intr.fy
    z := z }

/-! ### The input worker `WUserInput` -/

/-- Result of one `workProducer` invocation: the returned datum vector
(`nullptr` is `none`), whether the worker called `this->stop()`, and the
warning/error logs it emitted. -/
structure ProducerOutcome where
  result : Option (List Datum)
  stopped : Bool
  warnings : List String
  errors : List LogEntry
  deriving Repr, DecidableEq

/-- The throttled warning text of `workProducer`. -/
def emptyFrameWarning : String :=
  "Empty color image frame detected. Ignoring..."

/-- `WUserInput::workProducer`.  Its only interaction with the outside world
is `mSPtrCameraReader->getColorFrame()`, modelled as an `Except` value so
that a throwing call exercises the `catch` block (source lines 70–75): the
exception is logged with file/line/function context, `stop()` is called and
`nullptr` is returned.  Otherwise (lines 49–68): a non-empty color image is
wrapped as the single datum of a fresh vector, an empty one yields a
throttled warning and `nullptr`. -/
def workProducer (getColorFrame : Except Exn CvMat) : ProducerOutcome :=
  match getColorFrame with
  | .error e =>
      { result := none
        stopped := true
        warnings := []
        errors := [{ what := e.what, line := 73, func := "workProducer",
                     file := "rosOpenpose.cpp" }] }
  | .ok colorImage =>
      if !colorImage.empty then
        { result := some [{ Datum.default with cvInputData := colorImage }]
          stopped := false
          warnings := []
          errors := [] }
      else
        { result := none
          stopped := false
          warnings := [emptyFrameWarning]
          errors := [] }

/-! ### The output worker `WUserOutput` -/

/-- The mutable state of a `WUserOutput` instance: its `mFrame` member. -/
structure WUserOutput where
  mFrame : Frame
  deriving Repr, DecidableEq

/-- The `WUserOutput` constructor (source lines 89–95): `mFrame` is
default-constructed (empty frame id, zero stamp, no persons) and then its
`header.frame_id` is set to the startup parameter. -/
def WUserOutput.construct (frameId : String) : WUserOutput :=
  { mFrame := { header := { frame_id := frameId, stamp := 0 }, persons := [] } }

/-- The environment of one `workConsumer` invocation: the current ROS time,
the result of `mSPtrCameraReader->copyLatestDepthImage()` together with the
camera intrinsics held by the reader (either may be an exception), and
whether `mFramePublisher.publish` succeeds. -/
structure ConsumerEnv where
  now : Nat
  copyLatestDepthImage : Except Exn (Intrinsics × DepthImage)
  publishResult : Except Exn Unit

/-- Result of one `workConsumer` invocation: the frames actually handed to
`mFramePublisher.publish`, whether the worker called `this->stop()`, and the
error logs it emitted. -/
structure ConsumerOutcome where
  published : List Frame
  stopped : Bool
  errors : List LogEntry

/-- One body part of the frame built by `workConsumer` (source lines
131–155): pixel x, y and score are read at flat indices
`getSize(2) * (person * bodyPartCount + bodyPart)`, `+1`, `+2` of the
keypoint array, and the 3D point is `compute3DPoint` of the pixel. -/
def mkBodyPart (kp : OpArray) (intr : Intrinsics) (depth : DepthImage)
    (person bodyPart : Nat) : BodyPart :=
  let baseIndex := kp.getSize 2 * (person * kp.getSize 1 + bodyPart)
  let x := kp.at baseIndex
  let y := kp.at (baseIndex + 1)
  let score := kp.at (baseIndex + 2)
  { pixel := { x := x, y := y }
    score := score
    point := compute3DPoint intr depth x y }

/-- The frame built by a successful `workConsumer` invocation: its previous
persons are discarded (`clear`), it is resized to `personCount =
getSize(0)` persons of `bodyPartCount = getSize(1)` body parts each, every
body part filled from the keypoint array, while the frame id is left
untouched and the stamp is the current time. -/
def fillFrame (frameId : String) (now : Nat) (kp : OpArray)
    (intr : Intrinsics) (depth : DepthImage) : Frame :=
  { header := { frame_id := frameId, stamp := now }
    persons := (List.range (kp.getSize 0)).map fun person =>
      { bodyParts := (List.range (kp.getSize 1)).map fun bodyPart =>
          mkBodyPart kp intr depth person bodyPart } }

/-- `WUserOutput::workConsumer` (source lines 102–166).  A null or empty
datum vector is skipped silently.  Otherwise the stamp is updated and the
previous persons cleared, the latest depth image is copied, the frame is
rebuilt from the keypoints of the first datum and published.  A throwing
`copyLatestDepthImage` or `publish` call is caught (lines 161–165): the
exception is logged with file/line/function context and `stop()` is called;
the state mutations already performed remain in place. -/
def workConsumer (self : WUserOutput) (env : ConsumerEnv)
    (datumsPtr : Option (List Datum)) : WUserOutput × ConsumerOutcome :=
  match datumsPtr with
  | none => (self, { published := [], stopped := false, errors := [] })
  | some [] => (self, { published := [], stopped := false, errors := [] })
  | some (datum :: _) =>
      let kp := datum.poseKeypoints
      let cleared : Frame :=
        { header := { frame_id := self.mFrame.header.frame_id, stamp := env.now }
          persons := [] }
      match env.copyLatestDepthImage with
      | .error e =>
          ({ mFrame := cleared },
           { published := [], stopped := true,
             errors := [{ what := e.what, line := 164, func := "workConsumer",
                          file := "rosOpenpose.cpp" }] })
      | .ok (intr, depth) =>
          let frame := fillFrame self.mFrame.header.frame_id env.now kp intr depth
          match env.publishResult with
          | .error e =>
              ({ mFrame := frame },
               { published := [], stopped := true,
                 errors := [{ what := e.what, line := 164, func := "workConsumer",
                              file := "rosOpenpose.cpp" }] })
          | .ok _ =>
              ({ mFrame := frame },
               { published := [frame], stopped := false, errors := [] })

/-! ### Startup (`main`, source lines 355–412) -/

/-- The named parameters read at startup from the relative node handle. -/
structure MainParams where
  openposeModelDir : String
  colorTopic : String
  depthTopic : String
  camInfoTopic : String
  frameId : String
  pubTopic : String
  deriving Repr, DecidableEq

/-- What startup does after reading the parameters: either a fatal log and
an immediate `exit(-1)` — before any camera reader, publisher or OpenPose
wrapper exists — or normal startup carrying the constructed components
(the camera reader with its three topics, the publisher with its topic, the
model folder handed to OpenPose, and the consumer constructed from the
frame id). -/
inductive MainStartup where
  | fatalExit (exitCode : Int) (fatalMsg : String)
  | started (modelFolder : String)
      (cameraReaderTopics : String × String × String)
      (pubTopic : String) (consumer : WUserOutput)
  deriving Repr, DecidableEq

/-- The fatal message logged by `main` when the model directory is missing
(apostrophes of the original text elided). -/
def missingModelDirMsg : String :=
  "Missing openpose_model_dir info in launch file"

/-- The startup logic of `main` (source lines 361–392): if the
`openpose_model_dir` parameter was read as the empty string, log a fatal
error and `exit(-1)` immediately; otherwise set the model folder, construct
the camera reader from the three topics, advertise the publisher on the
publication topic and construct the output worker from the frame id. -/
def mainStartup (p : MainParams) : MainStartup :=
  if p.openposeModelDir.isEmpty then
    .fatalExit (-1) missingModelDirMsg
  else
    .started p.openposeModelDir (p.colorTopic, p.depthTopic, p.camInfoTopic)
      p.pubTopic (WUserOutput.construct p.frameId)

/-! ### Sample concrete values (used by witnesses) -/

/-- Sample calibrated intrinsics with nonzero focal lengths. -/
def sampleIntr : Intrinsics :=
  { fx := 2, fy := 3, cx := 4, cy := 5 }

/-- Sample depth image with constant nonzero depth. -/
def sampleDepth : DepthImage :=
  fun _ _ => 6

/-- Sample consumer environment in which no external call throws. -/
def sampleEnvOk : ConsumerEnv :=
  { now := 7
    copyLatestDepthImage := .ok (sampleIntr, sampleDepth)
    publishResult := .ok () }

/-- Sample keypoint array: 1 person, 2 body parts, 3 channels. -/
def sampleKp : OpArray :=
  { sizes := [1, 2, 3], data := [10, 11, 12, 20, 21, 22] }

/-- Sample datum carrying `sampleKp`. -/
def sampleDatum : Datum :=
  { cvInputData := { data := [1] }, poseKeypoints := sampleKp }

/-! ### Helper lemmas -/

/-- Reading a mapped range at an in-bounds position yields the mapped
value. -/
theorem getD_map_range {α : Type} (f : ℕ → α) {n p : ℕ} (hp : p < n) (d : α) :
    ((List.range n).map f).getD p d = f p := by
  simp [List.getD_eq_getElem?_getD, List.getElem?_range hp]

/-- The frame built by a successful consumer invocation has exactly
`getSize 0` persons. -/
theorem fillFrame_persons_length (frameId : String) (now : Nat) (kp : OpArray)
    (intr : Intrinsics) (depth : DepthImage) :
    (fillFrame frameId now kp intr depth).persons.length = kp.getSize 0 := by
  simp [fillFrame]

/-- The person at an in-bounds position of the built frame. -/
theorem fillFrame_persons_getD (frameId : String) (now : Nat) (kp : OpArray)
    (intr : Intrinsics) (depth : DepthImage) {p : ℕ} (hp : p < kp.getSize 0) :
    (fillFrame frameId now kp intr depth).persons.getD p { bodyParts := [] } =
      { bodyParts := (List.range (kp.getSize 1)).map fun bodyPart =>
          mkBodyPart kp intr depth p bodyPart } := by
  simp only [fillFrame]
  exact getD_map_range _ hp _

/-! ### Claim theorems -/

/-- C2: an empty or missing frame is skipped rather than crashing.  For the
producer, an empty color image yields a null datum pointer, no stop, and
the throttled warning; for the consumer, a null or empty datum list
publishes nothing and does not fail. -/
theorem empty_or_missing_frame_skipped :
    (∀ img : CvMat, img.empty = true →
      (workProducer (.ok img)).result = none ∧
      (workProducer (.ok img)).stopped = false ∧
      (workProducer (.ok img)).warnings = [emptyFrameWarning] ∧
      (workProducer (.ok img)).errors = []) ∧
    (∀ (self : WUserOutput) (env : ConsumerEnv),
      (workConsumer self env none).2.published = [] ∧
      (workConsumer self env none).2.stopped = false ∧
      (workConsumer self env (some [])).2.published = [] ∧
      (workConsumer self env (some [])).2.stopped = false) := by
  constructor
  · intro img h
    simp [workProducer, h]
  · intro self env
    exact ⟨rfl, rfl, rfl, rfl⟩

/-- Witness for C2 at a concrete empty image and concrete consumer state. -/
theorem empty_or_missing_frame_skipped_witness :
    CvMat.empty { data := [] } = true ∧
    (workProducer (.ok { data := [] })).result = none ∧
    (workConsumer (WUserOutput.construct "cam") sampleEnvOk none).2.published = [] := by
  refine ⟨rfl, ?_, ?_⟩
  · exact (empty_or_missing_frame_skipped.1 { data := [] } rfl).1
  · exact (empty_or_missing_frame_skipped.2 (WUserOutput.construct "cam") sampleEnvOk).1

/-- C3: an empty `openpose_model_dir` parameter makes startup log a fatal
error and exit with code -1 before any component is constructed (the
`fatalExit` branch carries no constructed component); a non-empty one makes
startup proceed, constructing the camera reader, publisher and consumer. -/
theorem missing_model_dir_is_fatal (p : MainParams) :
    (p.openposeModelDir = "" →
      mainStartup p = .fatalExit (-1) missingModelDirMsg) ∧
    (p.openposeModelDir ≠ "" →
      mainStartup p = .started p.openposeModelDir
        (p.colorTopic, p.depthTopic, p.camInfoTopic) p.pubTopic
        (WUserOutput.construct p.frameId)) := by
  constructor
  · intro h
    simp [mainStartup, (String.isEmpty_iff _).2 h]
  · intro h
    have hne : p.openposeModelDir.isEmpty = false := by
      rcases Bool.eq_false_or_eq_true p.openposeModelDir.isEmpty with ht | hf
      · exact absurd ((String.isEmpty_iff _).1 ht) h
      · exact hf
    simp [mainStartup, hne]

/-- Witness for C3 at concrete parameter records, one empty and one not. -/
theorem missing_model_dir_is_fatal_witness :
    mainStartup { openposeModelDir := "", colorTopic := "c", depthTopic := "d",
                  camInfoTopic := "i", frameId := "f", pubTopic := "p" } =
      .fatalExit (-1) missingModelDirMsg ∧
    mainStartup { openposeModelDir := "m", colorTopic := "c", depthTopic := "d",
                  camInfoTopic := "i", frameId := "f", pubTopic := "p" } =
      .started "m" ("c", "d", "i") "p" (WUserOutput.construct "f") := by
  constructor
  · exact (missing_model_dir_is_fatal _).1 rfl
  · exact (missing_model_dir_is_fatal
      { openposeModelDir := "m", colorTopic := "c", depthTopic := "d",
        camInfoTopic := "i", frameId := "f", pubTopic := "p" }).2 (by decide)

/-- C6: exactly one message is published per processed frame: a non-null,
non-empty datum list (with the external calls succeeding) yields exactly
one publish, a null or empty one yields none. -/
theorem one_publish_per_processed_frame (self : WUserOutput) (env : ConsumerEnv)
    (datum : Datum) (rest : List Datum) (intr : Intrinsics) (depth : DepthImage)
    (hcopy : env.copyLatestDepthImage = .ok (intr, depth))
    (hpub : env.publishResult = .ok ()) :
    (workConsumer self env (some (datum :: rest))).2.published.length = 1 ∧
    (workConsumer self env none).2.published.length = 0 ∧
    (workConsumer self env (some [])).2.published.length = 0 := by
  refine ⟨?_, rfl, rfl⟩
  simp [workConsumer, hcopy, hpub]

/-- Witness for C6 at a concrete state, environment and datum list. -/
theorem one_publish_per_processed_frame_witness :
    (workConsumer (WUserOutput.construct "cam") sampleEnvOk
      (some [sampleDatum])).2.published.length = 1 := by
  exact (one_publish_per_processed_frame (WUserOutput.construct "cam") sampleEnvOk
    sampleDatum [] sampleIntr sampleDepth rfl rfl).1

/-- C7: a non-empty latest color image makes the producer return a datum
vector holding exactly one datum whose `cvInputData` is that image,
unmodified. -/
theorem producer_wraps_latest_frame (colorImage : CvMat)
    (h : colorImage.empty = false) :
    ∃ d : Datum, (workProducer (.ok colorImage)).result = some [d] ∧
      d.cvInputData = colorImage := by
  refine ⟨{ Datum.default with cvInputData := colorImage }, ?_, rfl⟩
  simp [workProducer, h]

/-- Witness for C7 at a concrete one-pixel image. -/
theorem producer_wraps_latest_frame_witness :
    CvMat.empty { data := [9] } = false ∧
    ∃ d : Datum, (workProducer (.ok { data := [9] })).result = some [d] ∧
      d.cvInputData = { data := [9] } := by
  exact ⟨rfl, producer_wraps_latest_frame { data := [9] } rfl⟩

/-- C4: every exception raised inside a worker invocation is caught at that
worker's boundary (the modelled workers are total functions, so nothing
propagates), logged with file, line and function context, and the raising
worker stops itself; the producer additionally returns a null datum
pointer. -/
theorem worker_exceptions_caught :
    (∀ e : Exn,
      (workProducer (.error e)).result = none ∧
      (workProducer (.error e)).stopped = true ∧
      (workProducer (.error e)).errors =
        [{ what := e.what, line := 73, func := "workProducer",
           file := "rosOpenpose.cpp" }]) ∧
    (∀ (self : WUserOutput) (env : ConsumerEnv) (datum : Datum)
        (rest : List Datum) (e : Exn),
      (env.copyLatestDepthImage = .error e ∨
        ((∃ d, env.copyLatestDepthImage = .ok d) ∧ env.publishResult = .error e)) →
      (workConsumer self env (some (datum :: rest))).2.stopped = true ∧
      (workConsumer self env (some (datum :: rest))).2.published = [] ∧
      (workConsumer self env (some (datum :: rest))).2.errors =
        [{ what := e.what, line := 164, func := "workConsumer",
           file := "rosOpenpose.cpp" }]) := by
  constructor
  · intro e
    exact ⟨rfl, rfl, rfl⟩
  · rintro self env datum rest e (hc | ⟨⟨⟨intr, depth⟩, hc⟩, hp⟩)
    · simp [workConsumer, hc]
    · simp [workConsumer, hc, hp]

/-- Witness for C4: a concrete throwing `copyLatestDepthImage` call. -/
theorem worker_exceptions_caught_witness :
    (workProducer (.error { what := "boom" })).stopped = true ∧
    (workConsumer (WUserOutput.construct "cam")
      { now := 7, copyLatestDepthImage := .error { what := "boom" },
        publishResult := .ok () }
      (some [sampleDatum])).2.stopped = true := by
  constructor
  · exact (worker_exceptions_caught.1 { what := "boom" }).2.1
  · exact (worker_exceptions_caught.2 (WUserOutput.construct "cam")
      { now := 7, copyLatestDepthImage := .error { what := "boom" },
        publishResult := .ok () }
      sampleDatum [] { what := "boom" } (Or.inl rfl)).1

/-- C8: the published persons depend only on the current keypoints and the
current depth data (carried by the environment), never on the consumer's
previous state: two invocations from arbitrary prior states with the same
datum list and environment publish the same persons. -/
theorem persons_independent_of_prior_state (self self' : WUserOutput)
    (env : ConsumerEnv) (datumsPtr : Option (List Datum)) :
    (workConsumer self env datumsPtr).2.published.map Frame.persons =
      (workConsumer self' env datumsPtr).2.published.map Frame.persons := by
  match datumsPtr with
  | none => rfl
  | some [] => rfl
  | some (datum :: rest) =>
    rcases hc : env.copyLatestDepthImage with e | ⟨intr, depth⟩
    · simp [workConsumer, hc]
    · rcases hp : env.publishResult with e | u
      · simp [workConsumer, hc, hp]
      · simp [workConsumer, hc, hp, fillFrame]

/-- C9: the frame id is set once from the startup parameter by the
constructor, every invocation leaves the stored frame id unchanged, and
every published frame carries the stored frame id. -/
theorem frame_id_set_once_and_preserved :
    (∀ frameId : String,
      (WUserOutput.construct frameId).mFrame.header.frame_id = frameId) ∧
    (∀ (self : WUserOutput) (env : ConsumerEnv) (datumsPtr : Option (List Datum)),
      (workConsumer self env datumsPtr).1.mFrame.header.frame_id =
        self.mFrame.header.frame_id ∧
      ∀ f ∈ (workConsumer self env datumsPtr).2.published,
        f.header.frame_id = self.mFrame.header.frame_id) := by
  constructor
  · intro frameId
    rfl
  · intro self env datumsPtr
    match datumsPtr with
    | none => exact ⟨rfl, by intro f hf; simp [workConsumer] at hf⟩
    | some [] => exact ⟨rfl, by intro f hf; simp [workConsumer] at hf⟩
    | some (datum :: rest) =>
      rcases hc : env.copyLatestDepthImage with e | ⟨intr, depth⟩
      · exact ⟨by simp [workConsumer, hc], by intro f hf; simp [workConsumer, hc] at hf⟩
      · rcases hp : env.publishResult with e | u
        · exact ⟨by simp [workConsumer, hc, hp, fillFrame],
                 by intro f hf; simp [workConsumer, hc, hp] at hf⟩
        · refine ⟨by simp [workConsumer, hc, hp, fillFrame], ?_⟩
          intro f hf
          simp [workConsumer, hc, hp] at hf
          simp [hf, fillFrame]

/-- Witness for C9: the concrete frame published by a concrete invocation
carries the constructor's frame id. -/
theorem frame_id_set_once_and_preserved_witness :
    (WUserOutput.construct "cam").mFrame.header.frame_id = "cam" ∧
    ∀ f ∈ (workConsumer (WUserOutput.construct "cam") sampleEnvOk
        (some [sampleDatum])).2.published,
      f.header.frame_id = "cam" := by
  constructor
  · exact frame_id_set_once_and_preserved.1 "cam"
  · exact (frame_id_set_once_and_preserved.2 (WUserOutput.construct "cam")
      sampleEnvOk (some [sampleDatum])).2

/-- C10: on a keypoint array of (at least) three dimensions, the optimized
flat-index access used by the consumer agrees with the multi-index access
of the commented-out "easy version": the flat indices
`getSize(2) * (p * getSize(1) + b)`, `+1`, `+2` address exactly the
elements `{p, b, 0}`, `{p, b, 1}` and `{p, b, 2}`. -/
theorem flat_index_access_eq_multi_index (a : OpArray) (p b : Nat)
    (hdim : 3 ≤ a.sizes.length) :
    a.at (a.getSize 2 * (p * a.getSize 1 + b)) = a.atMulti [p, b, 0] ∧
    a.at (a.getSize 2 * (p * a.getSize 1 + b) + 1) = a.atMulti [p, b, 1] ∧
    a.at (a.getSize 2 * (p * a.getSize 1 + b) + 2) = a.atMulti [p, b, 2] := by
  obtain ⟨sizes, data⟩ := a
  match sizes, hdim with
  | s0 :: s1 :: s2 :: rest, _ =>
    have hidx : ∀ c : Nat,
        OpArray.getIndex ⟨s0 :: s1 :: s2 :: rest, data⟩ [p, b, c] =
          s2 * (p * s1 + b) + c := by
      intro c
      simp [OpArray.getIndex]
      ring
    have h1 : OpArray.getSize ⟨s0 :: s1 :: s2 :: rest, data⟩ 1 = s1 := by
      simp [OpArray.getSize]
    have h2 : OpArray.getSize ⟨s0 :: s1 :: s2 :: rest, data⟩ 2 = s2 := by
      simp [OpArray.getSize]
    refine ⟨?_, ?_, ?_⟩ <;>
      simp [OpArray.atMulti, hidx, h1, h2]

/-- Witness for C10 on the concrete sample keypoint array. -/
theorem flat_index_access_eq_multi_index_witness :
    3 ≤ sampleKp.sizes.length ∧
    sampleKp.at (sampleKp.getSize 2 * (0 * sampleKp.getSize 1 + 1) + 2) =
      sampleKp.atMulti [0, 1, 2] := by
  exact ⟨by decide, (flat_index_access_eq_multi_index sampleKp 0 1 (by decide)).2.2⟩

/-- C1: a consumer invocation with a non-null, non-empty datum list (whose
external calls succeed) publishes a frame with exactly `getSize 0` persons,
each with exactly `getSize 1` body parts in keypoint order; the body part at
`(person, bodyPart)` carries pixel.x, pixel.y and score read at flat indices
`getSize(2) * (person * bodyPartCount + bodyPart)`, `+1`, `+2` of the
keypoint array, and a 3D point equal to `compute3DPoint` of that pixel. -/
theorem consumer_publishes_all_keypoints (self : WUserOutput) (env : ConsumerEnv)
    (datum : Datum) (rest : List Datum) (intr : Intrinsics) (depth : DepthImage)
    (hcopy : env.copyLatestDepthImage = .ok (intr, depth))
    (hpub : env.publishResult = .ok ()) :
    ∃ f : Frame,
      (workConsumer self env (some (datum :: rest))).2.published = [f] ∧
      f.persons.length = datum.poseKeypoints.getSize 0 ∧
      ∀ person, person < datum.poseKeypoints.getSize 0 →
        (f.persons.getD person { bodyParts := [] }).bodyParts.length =
          datum.poseKeypoints.getSize 1 ∧
        ∀ bodyPart, bodyPart < datum.poseKeypoints.getSize 1 →
          (f.persons.getD person { bodyParts := [] }).bodyParts.getD bodyPart
              { pixel := { x := 0, y := 0 }, score := 0,
                point := { x := 0, y := 0, z := 0 } } =
            { pixel :=
                { x := datum.poseKeypoints.at (datum.poseKeypoints.getSize 2 *
                    (person * datum.poseKeypoints.getSize 1 + bodyPart))
                  y := datum.poseKeypoints.at (datum.poseKeypoints.getSize 2 *
                    (person * datum.poseKeypoints.getSize 1 + bodyPart) + 1) }
              score := datum.poseKeypoints.at (datum.poseKeypoints.getSize 2 *
                    (person * datum.poseKeypoints.getSize 1 + bodyPart) + 2)
              point := compute3DPoint intr depth
                  (datum.poseKeypoints.at (datum.poseKeypoints.getSize 2 *
                    (person * datum.poseKeypoints.getSize 1 + bodyPart)))
                  (datum.poseKeypoints.at (datum.poseKeypoints.getSize 2 *
                    (person * datum.poseKeypoints.getSize 1 + bodyPart) + 1)) } := by
  refine ⟨fillFrame self.mFrame.header.frame_id env.now datum.poseKeypoints intr depth,
    ?_, fillFrame_persons_length _ _ _ _ _, ?_⟩
  · simp [workConsumer, hcopy, hpub]
  · intro person hperson
    rw [fillFrame_persons_getD _ _ _ _ _ hperson]
    constructor
    · simp
    · intro bodyPart hbody
      show ((List.range (datum.poseKeypoints.getSize 1)).map fun b =>
        mkBodyPart datum.poseKeypoints intr depth person b).getD bodyPart _ = _
      rw [getD_map_range _ hbody]
      rfl

/-- Witness for C1 at a concrete invocation with one person and two body
parts. -/
theorem consumer_publishes_all_keypoints_witness :
    ∃ f : Frame,
      (workConsumer (WUserOutput.construct "cam") sampleEnvOk
        (some [sampleDatum])).2.published = [f] ∧
      f.persons.length = 1 := by
  obtain ⟨f, hpub, hlen, -⟩ := consumer_publishes_all_keypoints
    (WUserOutput.construct "cam") sampleEnvOk sampleDatum [] sampleIntr sampleDepth
    rfl rfl
  exact ⟨f, hpub, by rw [hlen]; decide⟩

/-- C5: each body part's 3D point is `compute3DPoint` of its own 2D pixel,
and `compute3DPoint` is the inverse pinhole projection for the calibrated
intrinsics: its z is the looked-up depth, and forward projection through
the intrinsic matrix recovers the pixel whenever the focal lengths and the
depth are nonzero. -/
theorem keypoint_projected_by_inverse_pinhole :
    (∀ (kp : OpArray) (intr : Intrinsics) (depth : DepthImage)
        (person bodyPart : Nat),
      (mkBodyPart kp intr depth person bodyPart).point =
        compute3DPoint intr depth
          (mkBodyPart kp intr depth person bodyPart).pixel.x
          (mkBodyPart kp intr depth person bodyPart).pixel.y) ∧
    (∀ (intr : Intrinsics) (depth : DepthImage) (u v : ℚ),
      intr.fx ≠ 0 → intr.fy ≠ 0 → depth u v ≠ 0 →
      (compute3DPoint intr depth u v).z = depth u v ∧
      intr.fx * (compute3DPoint intr depth u v).x /
        (compute3DPoint intr depth u v).z + intr.cx = u ∧
      intr.fy * (compute3DPoint intr depth u v).y /
        (compute3DPoint intr depth u v).z + intr.cy = v) := by
  constructor
  · intro kp intr depth person bodyPart
    rfl
  · intro intr depth u v hfx hfy hz
    refine ⟨rfl, ?_, ?_⟩ <;>
    · simp only [compute3DPoint]
      field_simp

/-- Witness for C5 at concrete intrinsics, depth and pixel. -/
theorem keypoint_projected_by_inverse_pinhole_witness :
    sampleIntr.fx ≠ 0 ∧ sampleIntr.fy ≠ 0 ∧ sampleDepth 10 11 ≠ 0 ∧
    sampleIntr.fx * (compute3DPoint sampleIntr sampleDepth 10 11).x /
      (compute3DPoint sampleIntr sampleDepth 10 11).z + sampleIntr.cx = 10 := by
  have hfx : sampleIntr.fx ≠ 0 := by norm_num [sampleIntr]
  have hfy : sampleIntr.fy ≠ 0 := by norm_num [sampleIntr]
  have hz : sampleDepth 10 11 ≠ 0 := by norm_num [sampleDepth]
  exact ⟨hfx, hfy, hz,
    (keypoint_projected_by_inverse_pinhole.2 sampleIntr sampleDepth 10 11
      hfx hfy hz).2.1⟩

end RosOpenpose
